import Mathlib

/-!
Shallow embedding of `example/simple/src/volume.c`: a simulated block-storage
volume backend for the OCF caching framework.  The backend serves two flat
files ("cache" and "core"), each provisioned at a fixed 200 MiB capacity, and
performs positioned reads/writes between a backing file and a caller-owned
data buffer, completing each request through a callback.

Files are modelled as a current size plus total byte contents; caller memory
is a total function from byte positions to byte values.  OS-level syscall
failure on `open` (permissions, disk full) is modelled by a boolean oracle
`ok`, since the C code never inspects the returned descriptor.  The trace of
invocations of the request completion callback `io->end` is returned
explicitly as a list of the statuses passed to it.
-/

/-- VOL_SIZE from volume.c line 13: the fixed capacity, 200 MiB. -/
def VOL_SIZE : Nat := 200 * 1024 * 1024

/-- A regular file on the local filesystem: its current size in bytes and its
byte contents (positions at or beyond `size` are not observable through
`pread`, which performs a short read at end of file). -/
structure File where
  size : Nat
  data : Nat → Nat

/-- POSIX `ftruncate(fd, n)`: set the file size to `n`; bytes kept from the
old contents below the old size, the extended region reads as zero. -/
def ftruncateFile (f : File) (n : Nat) : File :=
  { size := n
    data := fun i => if i < min f.size n then f.data i else 0 }

/-- POSIX `pwrite` semantics on a file value: write `len` bytes taken from
`src 0, src 1, ...` at file offset `addr`; the file grows to cover the
written range, and any hole created between the old end of file and `addr`
reads as zero. -/
def fileWrite (f : File) (src : Nat → Nat) (len addr : Nat) : File :=
  { size := max f.size (addr + len)
    data := fun i =>
      if addr ≤ i ∧ i < addr + len then src (i - addr)
      else if i < f.size then f.data i
      else 0 }

/-- Global mutable state of volume.c: the two backing files on disk ("cache"
and "core" paths), whether the global descriptors `cache_fd` / `core_fd`
currently refer to an open descriptor on the corresponding file, and the
static memoization variable `need_reload` (volume.c line 204, -1 means not
initialized). -/
structure Sys where
  cacheFile : Option File
  coreFile : Option File
  cacheFdValid : Bool
  coreFdValid : Bool
  need_reload : Int

/-- POSIX `pwrite(fd, buf + srcOff, count, addr)`: on a valid descriptor the
file is updated and the byte count is returned; on an invalid descriptor the
call fails with -1 and the file is unchanged. -/
def pwriteFd (valid : Bool) (f : Option File) (buf : Nat → Nat)
    (srcOff count addr : Nat) : Option File × Int :=
  if valid then
    match f with
    | some file => (some (fileWrite file (fun j => buf (srcOff + j)) count addr),
                    Int.ofNat count)
    | none => (f, -1)
  else (f, -1)

/-- POSIX `pread(fd, buf + dstOff, count, addr)`: on a valid descriptor it
reads `min count (size - addr)` bytes (short read at end of file) into the
buffer starting at `dstOff` and returns the count; on an invalid descriptor
it fails with -1 and leaves the buffer unchanged. -/
def preadBuf (valid : Bool) (f : Option File) (buf : Nat → Nat)
    (dstOff count addr : Nat) : (Nat → Nat) × Int :=
  if valid then
    match f with
    | some file =>
        (fun i => if dstOff ≤ i ∧ i < dstOff + min count (file.size - addr)
                  then file.data (addr + (i - dstOff)) else buf i,
         Int.ofNat (min count (file.size - addr)))
    | none => (buf, -1)
  else (buf, -1)

/-- Direction of an I/O request, `io->dir` (OCF_READ / OCF_WRITE). -/
inductive OcfDir
  | OCF_READ
  | OCF_WRITE
deriving DecidableEq

/-- struct volume_data (fields as used in volume.c lines 83-91): the caller's
buffer memory `ptr` together with the buffer's own internal offset field. -/
structure VolumeData where
  ptr : Nat → Nat
  offset : Nat

/-- struct myvolume_io, the io private area written by
`myvolume_io_set_data` (volume.c lines 137-146): the attached data object and
the offset argument that was passed to set_data. -/
structure MyvolumeIo where
  data : VolumeData
  offset : Nat

/-- struct ocf_io, restricted to the fields volume.c reads: direction,
address, byte count, and the io private area (io_priv_size is
sizeof(struct myvolume_io), volume.c line 165). -/
structure OcfIo where
  dir : OcfDir
  addr : Nat
  bytes : Nat
  priv : MyvolumeIo

/-- myvolume_io_set_data (volume.c lines 137-146): store the data object and
the offset in the io private area and return 0. -/
def myvolume_io_set_data (io : OcfIo) (data : VolumeData) (offset : Nat) :
    OcfIo × Int :=
  ({ io with priv := { data := data, offset := offset } }, 0)

/-- myvolume_io_get_data (volume.c lines 151-156): return the data object
stored in the io private area (and only it; the stored offset is not
returned). -/
def myvolume_io_get_data (io : OcfIo) : VolumeData :=
  io.priv.data

/-- Modelled from the spec: the OCF framework function `ocf_io_get_data`
(declared in the external ocf headers, not part of this source) dispatches to
the volume type's registered io_ops.get_data, which volume_properties
(volume.c lines 179-182) binds to `myvolume_io_get_data`. -/
def ocf_io_get_data (io : OcfIo) : VolumeData :=
  myvolume_io_get_data io

/-- volume_open (volume.c lines 25-51).  `name` is the uuid string stored as
the volume name; `ok` is the OS oracle: whether the `open`/`ftruncate`
syscalls succeed.  Dispatch: name "cache" uses cache_path/cache_fd, any other
name uses core_path/core_fd.  If the backing file exists (`access == 0`) it
is opened read/write without truncation; otherwise it is created
(O_CREAT|O_TRUNC gives an empty file) and extended by ftruncate to VOL_SIZE.
The C function returns 0 unconditionally (line 50); the returned descriptor
is never checked. -/
def volume_open (name : String) (ok : Bool) (s : Sys) : Int × Sys :=
  if name = "cache" then
    if s.cacheFile.isSome then
      (0, { s with cacheFdValid := ok })
    else
      if ok then
        (0, { s with
              cacheFile := some (ftruncateFile { size := 0, data := fun _ => 0 } VOL_SIZE),
              cacheFdValid := true })
      else
        (0, { s with cacheFdValid := false })
  else
    if s.coreFile.isSome then
      (0, { s with coreFdValid := ok })
    else
      if ok then
        (0, { s with
              coreFile := some (ftruncateFile { size := 0, data := fun _ => 0 } VOL_SIZE),
              coreFdValid := true })
      else
        (0, { s with coreFdValid := false })

/-- volume_close (volume.c lines 56-67): close the global descriptor chosen
by the same name dispatch; the backing file itself is not touched. -/
def volume_close (name : String) (s : Sys) : Sys :=
  if name = "cache" then { s with cacheFdValid := false }
  else { s with coreFdValid := false }

/-- Result of a submit entry point: the new global state, the contents of the
caller's data buffer after the call, and the trace of statuses passed to the
completion callback `io->end`, in order of invocation. -/
structure IoResult where
  sys : Sys
  buffer : Nat → Nat
  completions : List Int

/-- volume_submit_io (volume.c lines 73-100): fetch the attached data object,
dispatch on the volume name, then pwrite from / pread into
`data->ptr + data->offset` for `io->bytes` bytes at file offset `io->addr`,
and finally invoke `io->end(io, 0)`.  The second component is the return
value of the pread/pwrite syscall, which the C code discards. -/
def volume_submit_io (name : String) (io : OcfIo) (s : Sys) : IoResult × Int :=
  let data := ocf_io_get_data io
  if name = "cache" then
    if io.dir = OcfDir.OCF_WRITE then
      let w := pwriteFd s.cacheFdValid s.cacheFile data.ptr data.offset io.bytes io.addr
      ({ sys := { s with cacheFile := w.1 }, buffer := data.ptr, completions := [0] }, w.2)
    else
      let r := preadBuf s.cacheFdValid s.cacheFile data.ptr data.offset io.bytes io.addr
      ({ sys := s, buffer := r.1, completions := [0] }, r.2)
  else
    if io.dir = OcfDir.OCF_WRITE then
      let w := pwriteFd s.coreFdValid s.coreFile data.ptr data.offset io.bytes io.addr
      ({ sys := { s with coreFile := w.1 }, buffer := data.ptr, completions := [0] }, w.2)
    else
      let r := preadBuf s.coreFdValid s.coreFile data.ptr data.offset io.bytes io.addr
      ({ sys := s, buffer := r.1, completions := [0] }, r.2)

/-- volume_submit_flush (volume.c lines 105-108): no transfer, just
`io->end(io, 0)`. -/
def volume_submit_flush (io : OcfIo) (s : Sys) : IoResult :=
  { sys := s, buffer := (ocf_io_get_data io).ptr, completions := [0] }

/-- volume_submit_discard (volume.c lines 113-116): no transfer, just
`io->end(io, 0)`. -/
def volume_submit_discard (io : OcfIo) (s : Sys) : IoResult :=
  { sys := s, buffer := (ocf_io_get_data io).ptr, completions := [0] }

/-- volume_get_max_io_size (volume.c lines 121-124): fixed 128 KiB. -/
def volume_get_max_io_size (_name : String) : Nat :=
  128 * 1024

/-- volume_get_length (volume.c lines 129-132): fixed capacity VOL_SIZE. -/
def volume_get_length (_name : String) : Nat :=
  VOL_SIZE

/-- need_reload_cache (volume.c lines 206-213): memoized check whether the
cache backing file exists.  The static variable `need_reload` starts at -1
(not initialized); the first call stores 1 or 0 according to
`access(cache_path, F_OK) == 0` and later calls return the stored value
cast to bool. -/
def need_reload_cache (s : Sys) : Bool × Sys :=
  if s.need_reload ≠ -1 then
    (decide (s.need_reload ≠ 0), s)
  else
    let v : Int := if s.cacheFile.isSome then 1 else 0
    (decide (v ≠ 0), { s with need_reload := v })

/-- The backing file selected by the name dispatch of volume.c (strcmp with
"cache"): observation helper for stating routing-independent theorems. -/
def Sys.fileFor (s : Sys) (name : String) : Option File :=
  if name = "cache" then s.cacheFile else s.coreFile

/-- The validity of the global descriptor selected by the name dispatch of
volume.c: observation helper. -/
def Sys.fdValidFor (s : Sys) (name : String) : Bool :=
  if name = "cache" then s.cacheFdValid else s.coreFdValid

/-! ## Helper lemmas and concrete test fixtures -/

lemma fileWrite_size (f : File) (src : Nat → Nat) (len addr : Nat) :
    (fileWrite f src len addr).size = max f.size (addr + len) := rfl

lemma fileWrite_data_in (f : File) (src : Nat → Nat) (len addr i : Nat)
    (h1 : addr ≤ i) (h2 : i < addr + len) :
    (fileWrite f src len addr).data i = src (i - addr) := by
  simp [fileWrite, h1, h2]

lemma preadBuf_in (file : File) (buf : Nat → Nat) (dstOff count addr j : Nat)
    (hj : j < min count (file.size - addr)) :
    (preadBuf true (some file) buf dstOff count addr).1 (dstOff + j)
      = file.data (addr + j) := by
  have hcond : dstOff ≤ dstOff + j ∧
      dstOff + j < dstOff + min count (file.size - addr) :=
    ⟨Nat.le_add_right _ _, by omega⟩
  simp [preadBuf, hcond]

lemma pwrite_then_pread_byte (f : File) (wd rd : VolumeData) (A N j : Nat)
    (hj : j < N) :
    (preadBuf true (pwriteFd true (some f) wd.ptr wd.offset N A).1
        rd.ptr rd.offset N A).1 (rd.offset + j)
      = wd.ptr (wd.offset + j) := by
  show (preadBuf true
      (some (fileWrite f (fun k => wd.ptr (wd.offset + k)) N A))
      rd.ptr rd.offset N A).1 (rd.offset + j) = wd.ptr (wd.offset + j)
  have hsz : (fileWrite f (fun k => wd.ptr (wd.offset + k)) N A).size
      = max f.size (A + N) := rfl
  have hmin : min N ((fileWrite f (fun k => wd.ptr (wd.offset + k)) N A).size - A)
      = N := by
    rw [hsz]; omega
  rw [preadBuf_in _ _ _ _ _ _ (by omega)]
  rw [fileWrite_data_in _ _ _ _ _ (Nat.le_add_right _ _) (by omega)]
  congr 1
  omega

/-- A concrete pre-existing backing file used in witnesses. -/
def fileC : File := { size := 8, data := fun _ => 0 }

/-- A concrete state with the cache volume open on `fileC`. -/
def sysOpenC : Sys :=
  { cacheFile := some fileC, coreFile := none, cacheFdValid := true,
    coreFdValid := false, need_reload := 0 }

/-- A fresh environment: no backing files, no descriptors, memo not set. -/
def sysFresh : Sys :=
  { cacheFile := none, coreFile := none, cacheFdValid := false,
    coreFdValid := false, need_reload := -1 }

/-- A state where the cache backing file exists but the descriptor is not
open (for instance after volume_close, or after a failed volume_open). -/
def sysNoFd : Sys :=
  { cacheFile := some { size := VOL_SIZE, data := fun _ => 0 }, coreFile := none,
    cacheFdValid := false, coreFdValid := false, need_reload := -1 }

/-! ## Claim theorems -/

/-- C9: volume_submit_flush and volume_submit_discard always complete their
request exactly once with success status 0, and leave the global state (hence
every byte of both backing files) and the caller's data buffer unchanged. -/
theorem flush_discard_noop_success (io : OcfIo) (s : Sys) :
    (volume_submit_flush io s).sys = s ∧
    (volume_submit_flush io s).buffer = (ocf_io_get_data io).ptr ∧
    (volume_submit_flush io s).completions = [0] ∧
    (volume_submit_discard io s).sys = s ∧
    (volume_submit_discard io s).buffer = (ocf_io_get_data io).ptr ∧
    (volume_submit_discard io s).completions = [0] :=
  ⟨rfl, rfl, rfl, rfl, rfl, rfl⟩

/-- C10 amended: set_data binds both the buffer and the offset into the
request's private area and reports success (0); get_data then returns
exactly the buffer object that was set, while the offset that was set
remains stored in the request's private area — it is not part of get_data's
return value. -/
theorem set_data_get_data_roundtrip (io : OcfIo) (buf : VolumeData) (off : Nat) :
    ocf_io_get_data (myvolume_io_set_data io buf off).1 = buf ∧
    (myvolume_io_set_data io buf off).1.priv.offset = off ∧
    (myvolume_io_set_data io buf off).2 = 0 :=
  ⟨rfl, rfl, rfl⟩

/-- C5: open is idempotent provisioning.  With the OS oracle succeeding, if
the backing file selected by the identifier already exists, volume_open
leaves it untouched (same size, every byte unchanged); if it does not exist,
volume_open creates it as an empty file and extends it by ftruncate to
VOL_SIZE; in both cases the descriptor is attached.  The created file has
size exactly 200 MiB. -/
theorem open_idempotent_provisioning (name : String) (s : Sys) :
    (volume_open name true s).2.fileFor name =
      (match s.fileFor name with
       | some f => some f
       | none => some (ftruncateFile { size := 0, data := fun _ => 0 } VOL_SIZE)) ∧
    (volume_open name true s).2.fdValidFor name = true ∧
    (ftruncateFile { size := 0, data := fun _ => 0 } VOL_SIZE).size
      = 200 * 1024 * 1024 := by
  refine ⟨?_, ?_, rfl⟩ <;>
    by_cases hname : name = "cache" <;>
      cases hc : s.cacheFile <;> cases hk : s.coreFile <;>
        simp [volume_open, Sys.fileFor, Sys.fdValidFor, hname, hc, hk]

/-- C4 counterexample: on a fresh filesystem, when the OS cannot create the
cache backing file (oracle false, so open(2) returns -1 and no file
appears), volume_open still returns 0 — the success status — even though no
valid descriptor was obtained; the claim that open returns a failure result
in this case is false. -/
theorem open_failure_reports_success :
    (volume_open "cache" false sysFresh).1 = 0 ∧
    (volume_open "cache" false sysFresh).2.cacheFdValid = false ∧
    (volume_open "cache" false sysFresh).2.cacheFile = none :=
  ⟨rfl, rfl, rfl⟩

/-- C4 amended: volume_open returns 0 (success) unconditionally, for every
identifier, every OS outcome and every state; failures of the underlying
open/ftruncate syscalls are never detected or reported. -/
theorem volume_open_always_returns_zero (name : String) (ok : Bool) (s : Sys) :
    (volume_open name ok s).1 = 0 := by
  by_cases hname : name = "cache" <;>
    cases hc : s.cacheFile <;> cases hk : s.coreFile <;> cases ok <;>
      simp [volume_open, hname, hc, hk]

/-- C3 counterexample: submitting a WRITE while the cache descriptor is not
open makes the pwrite syscall fail (return -1, no bytes transferred), yet
the completion callback is still invoked with status 0 (success), so the
claim that a failed transfer completes with an I/O error code is false. -/
theorem failed_transfer_completes_with_success :
    (volume_submit_io "cache"
        { dir := OcfDir.OCF_WRITE, addr := 0, bytes := 4,
          priv := { data := { ptr := fun i => i, offset := 0 }, offset := 0 } }
        sysNoFd).2 = -1 ∧
    (volume_submit_io "cache"
        { dir := OcfDir.OCF_WRITE, addr := 0, bytes := 4,
          priv := { data := { ptr := fun i => i, offset := 0 }, offset := 0 } }
        sysNoFd).1.completions = [0] :=
  ⟨rfl, rfl⟩

/-- C3 amended: for every submitted request (read, write, flush or discard),
the completion callback is invoked exactly once, always with status 0
(success), regardless of whether the underlying transfer succeeded. -/
theorem completion_always_success_once (name : String) (io : OcfIo) (s : Sys) :
    (volume_submit_io name io s).1.completions = [0] ∧
    (volume_submit_flush io s).completions = [0] ∧
    (volume_submit_discard io s).completions = [0] := by
  refine ⟨?_, rfl, rfl⟩
  by_cases hname : name = "cache" <;> cases hdir : io.dir <;>
    simp [volume_submit_io, hname, hdir]

/-- C6: the first call to need_reload_cache in a process (memo still -1)
returns true iff the cache backing file exists; and any later call, in any
state that carries the memoized value forward — however the files have been
created or deleted in the meantime — returns the same value and leaves the
memo unchanged. -/
theorem need_reload_cache_memoized (s s2 : Sys) (h : s.need_reload = -1)
    (h2 : s2.need_reload = (need_reload_cache s).2.need_reload) :
    (need_reload_cache s).1 = s.cacheFile.isSome ∧
    (need_reload_cache s2).1 = (need_reload_cache s).1 ∧
    (need_reload_cache s2).2.need_reload = (need_reload_cache s).2.need_reload := by
  cases hc : s.cacheFile <;>
    simp [need_reload_cache, h, hc] at h2 ⊢ <;>
      simp [need_reload_cache, h2]

/-- A later-in-process state: the memo has been computed (1) but the cache
backing file has since been deleted. -/
def sysDeleted : Sys :=
  { cacheFile := none, coreFile := none, cacheFdValid := false,
    coreFdValid := false, need_reload := 1 }

/-- Witness for C6: concrete run where the cache file exists at the first
call and is deleted before the second; both calls return true. -/
theorem need_reload_cache_memoized_witness :
    (sysNoFd.need_reload = -1 ∧
     sysDeleted.need_reload = (need_reload_cache sysNoFd).2.need_reload) ∧
    ((need_reload_cache sysNoFd).1 = sysNoFd.cacheFile.isSome ∧
     (need_reload_cache sysDeleted).1 = (need_reload_cache sysNoFd).1 ∧
     (need_reload_cache sysDeleted).2.need_reload
        = (need_reload_cache sysNoFd).2.need_reload) :=
  ⟨⟨by decide, by decide⟩,
   need_reload_cache_memoized sysNoFd sysDeleted (by decide) (by decide)⟩

/-- C1: on an open volume (valid descriptor on an existing backing file),
submitting a WRITE of N bytes at address A and then a READ of N bytes at
address A returns in the read buffer, starting at its data offset, exactly
the bytes that were written from the write buffer starting at its data
offset — for any A, N with A + N within the capacity. -/
theorem volume_write_then_read_roundtrip
    (name : String) (s : Sys) (f : File) (wd rd : VolumeData)
    (A N wpo rpo : Nat)
    (hfd : s.fdValidFor name = true) (hf : s.fileFor name = some f)
    (_hcap : A + N ≤ volume_get_length name) :
    ∀ j, j < N →
      (volume_submit_io name
          { dir := OcfDir.OCF_READ, addr := A, bytes := N,
            priv := { data := rd, offset := rpo } }
          ((volume_submit_io name
              { dir := OcfDir.OCF_WRITE, addr := A, bytes := N,
                priv := { data := wd, offset := wpo } } s).1.sys)).1.buffer
        (rd.offset + j)
      = wd.ptr (wd.offset + j) := by
  intro j hj
  obtain ⟨caF, coF, caV, coV, nr⟩ := s
  by_cases hname : name = "cache"
  · subst hname
    replace hfd : caV = true := hfd
    replace hf : caF = some f := hf
    subst hfd; subst hf
    exact pwrite_then_pread_byte f wd rd A N j hj
  · replace hfd : coV = true := by simpa [Sys.fdValidFor, hname] using hfd
    replace hf : coF = some f := by simpa [Sys.fileFor, hname] using hf
    subst hfd; subst hf
    simp only [volume_submit_io, ocf_io_get_data, myvolume_io_get_data,
      if_neg hname]
    exact pwrite_then_pread_byte f wd rd A N j hj

/-- A concrete write buffer: byte k has value k + 10, data offset 1. -/
def wdC : VolumeData := { ptr := fun i => i + 10, offset := 1 }

/-- A concrete read buffer: initially zero, data offset 5. -/
def rdC : VolumeData := { ptr := fun _ => 0, offset := 5 }

/-- Witness for C1: writing 3 bytes at address 2 on the open cache volume and
reading them back returns the written bytes. -/
theorem volume_write_then_read_roundtrip_witness :
    (sysOpenC.fdValidFor "cache" = true ∧ sysOpenC.fileFor "cache" = some fileC ∧
      2 + 3 ≤ volume_get_length "cache") ∧
    (∀ j, j < 3 →
      (volume_submit_io "cache"
          { dir := OcfDir.OCF_READ, addr := 2, bytes := 3,
            priv := { data := rdC, offset := 0 } }
          ((volume_submit_io "cache"
              { dir := OcfDir.OCF_WRITE, addr := 2, bytes := 3,
                priv := { data := wdC, offset := 0 } } sysOpenC).1.sys)).1.buffer
        (rdC.offset + j)
      = wdC.ptr (wdC.offset + j)) :=
  ⟨⟨rfl, rfl, by decide⟩,
   volume_write_then_read_roundtrip "cache" sysOpenC fileC wdC rdC 2 3 0 0
     rfl rfl (by decide)⟩

/-- C2: on an open volume, writing N bytes at address A, closing the volume,
re-opening the same identifier (with the OS oracle succeeding) and reading N
bytes at address A returns exactly the bytes that were written: close
releases only the descriptor and re-open attaches the same backing file
without truncation or data loss. -/
theorem volume_persistence_across_close_open
    (name : String) (s : Sys) (f : File) (wd rd : VolumeData)
    (A N wpo rpo : Nat)
    (hfd : s.fdValidFor name = true) (hf : s.fileFor name = some f) :
    ∀ j, j < N →
      (volume_submit_io name
          { dir := OcfDir.OCF_READ, addr := A, bytes := N,
            priv := { data := rd, offset := rpo } }
          (volume_open name true
            (volume_close name
              ((volume_submit_io name
                  { dir := OcfDir.OCF_WRITE, addr := A, bytes := N,
                    priv := { data := wd, offset := wpo } } s).1.sys))).2).1.buffer
        (rd.offset + j)
      = wd.ptr (wd.offset + j) := by
  intro j hj
  obtain ⟨caF, coF, caV, coV, nr⟩ := s
  by_cases hname : name = "cache"
  · subst hname
    replace hfd : caV = true := hfd
    replace hf : caF = some f := hf
    subst hfd; subst hf
    exact pwrite_then_pread_byte f wd rd A N j hj
  · replace hfd : coV = true := by simpa [Sys.fdValidFor, hname] using hfd
    replace hf : coF = some f := by simpa [Sys.fileFor, hname] using hf
    subst hfd; subst hf
    simp only [volume_submit_io, volume_open, volume_close, ocf_io_get_data,
      myvolume_io_get_data, if_neg hname]
    exact pwrite_then_pread_byte f wd rd A N j hj

/-- Witness for C2: the 3 bytes written at address 2 survive close and
re-open of the cache volume. -/
theorem volume_persistence_across_close_open_witness :
    (sysOpenC.fdValidFor "cache" = true ∧ sysOpenC.fileFor "cache" = some fileC) ∧
    (∀ j, j < 3 →
      (volume_submit_io "cache"
          { dir := OcfDir.OCF_READ, addr := 2, bytes := 3,
            priv := { data := rdC, offset := 0 } }
          (volume_open "cache" true
            (volume_close "cache"
              ((volume_submit_io "cache"
                  { dir := OcfDir.OCF_WRITE, addr := 2, bytes := 3,
                    priv := { data := wdC, offset := 0 } } sysOpenC).1.sys))).2).1.buffer
        (rdC.offset + j)
      = wdC.ptr (wdC.offset + j)) :=
  ⟨⟨rfl, rfl⟩,
   volume_persistence_across_close_open "cache" sysOpenC fileC wdC rdC 2 3 0 0
     rfl rfl⟩

/-- A concrete data buffer whose internal offset field is 0 and whose byte k
has value k. -/
def vdSeven : VolumeData := { ptr := fun i => i, offset := 0 }

/-- A concrete WRITE request of one byte at address 0, used to probe which
offset the transfer honors. -/
def ioForSet : OcfIo :=
  { dir := OcfDir.OCF_WRITE, addr := 0, bytes := 1,
    priv := { data := { ptr := fun _ => 99, offset := 3 }, offset := 9 } }

/-- C7 counterexample: bind buffer vdSeven (internal offset field 0) to the
request with set_data offset 7, then submit the 1-byte WRITE at address 0 on
the open cache volume.  The byte stored at file address 0 is the buffer byte
at position 0 (the buffer's internal offset), not the buffer byte at
position 7 bound by set_data — and those two bytes differ, so the claim that
the transfer begins at the set_data offset is false. -/
theorem submit_ignores_set_data_offset :
    (myvolume_io_set_data ioForSet vdSeven 7).1.priv.offset = 7 ∧
    ((volume_submit_io "cache" (myvolume_io_set_data ioForSet vdSeven 7).1
        sysOpenC).1.sys.cacheFile.map (fun g => g.data 0))
      = some (vdSeven.ptr 0) ∧
    vdSeven.ptr 0 ≠ vdSeven.ptr 7 :=
  ⟨rfl, rfl, by decide⟩

/-- C10 counterexample: get_data cannot retrieve the offset that was set.
Binding the same buffer to the same request with offset 7 and with offset 3
produces requests on which get_data returns the very same value, although
the two offsets that were set differ — so the bound pair (buffer, offset) is
not retrievable from get_data's result, and the claim that get_data
retrieves it is false. -/
theorem get_data_does_not_return_offset :
    myvolume_io_get_data (myvolume_io_set_data ioForSet vdSeven 7).1
      = myvolume_io_get_data (myvolume_io_set_data ioForSet vdSeven 3).1 ∧
    (myvolume_io_set_data ioForSet vdSeven 7).1.priv.offset
      ≠ (myvolume_io_set_data ioForSet vdSeven 3).1.priv.offset :=
  ⟨rfl, by decide⟩

/-- C7 amended: for every submitted read or write request, the transfer
through the data buffer begins at the buffer's own internal offset field
(data->offset of the attached volume_data), not at the offset argument
stored by set_data: the outcome of submit is unchanged under any change of
the set_data-stored offset; a WRITE on an open volume stores at file
address addr + j the buffer byte at data.offset + j; and a READ on an open
volume places at buffer position data.offset + j the file byte at addr + j,
for every j below the transferred length. -/
theorem submit_uses_buffer_internal_offset
    (name : String) (io : OcfIo) (s : Sys) (o : Nat) (f : File) (j : Nat)
    (hfd : s.fdValidFor name = true) (hf : s.fileFor name = some f) :
    volume_submit_io name
        { io with priv := { data := io.priv.data, offset := o } } s
      = volume_submit_io name io s ∧
    (io.dir = OcfDir.OCF_WRITE → j < io.bytes →
      ((volume_submit_io name io s).1.sys.fileFor name).map
          (fun g => g.data (io.addr + j))
        = some (io.priv.data.ptr (io.priv.data.offset + j))) ∧
    (io.dir = OcfDir.OCF_READ → j < min io.bytes (f.size - io.addr) →
      (volume_submit_io name io s).1.buffer (io.priv.data.offset + j)
        = f.data (io.addr + j)) := by
  obtain ⟨d, A, B, ⟨⟨bp, boff⟩, po⟩⟩ := io
  obtain ⟨caF, coF, caV, coV, nr⟩ := s
  refine ⟨rfl, ?_, ?_⟩
  · intro hdir hj
    replace hdir : d = OcfDir.OCF_WRITE := hdir
    subst hdir
    replace hj : j < B := hj
    have hbyte : (fileWrite f (fun k => bp (boff + k)) B A).data (A + j)
        = bp (boff + j) := by
      rw [fileWrite_data_in _ _ _ _ _ (Nat.le_add_right _ _) (by omega)]
      congr 1
      omega
    by_cases hname : name = "cache"
    · subst hname
      replace hfd : caV = true := hfd
      replace hf : caF = some f := hf
      subst hfd; subst hf
      exact congrArg some hbyte
    · replace hfd : coV = true := by simpa [Sys.fdValidFor, hname] using hfd
      replace hf : coF = some f := by simpa [Sys.fileFor, hname] using hf
      subst hfd; subst hf
      simp only [volume_submit_io, ocf_io_get_data, myvolume_io_get_data,
        Sys.fileFor, if_neg hname]
      exact congrArg some hbyte
  · intro hdir hj
    replace hdir : d = OcfDir.OCF_READ := hdir
    subst hdir
    replace hj : j < min B (f.size - A) := hj
    by_cases hname : name = "cache"
    · subst hname
      replace hfd : caV = true := hfd
      replace hf : caF = some f := hf
      subst hfd; subst hf
      exact preadBuf_in f bp boff B A j hj
    · replace hfd : coV = true := by simpa [Sys.fdValidFor, hname] using hfd
      replace hf : coF = some f := by simpa [Sys.fileFor, hname] using hf
      subst hfd; subst hf
      simp only [volume_submit_io, ocf_io_get_data, myvolume_io_get_data,
        if_neg hname]
      exact preadBuf_in f bp boff B A j hj

/-- A concrete WRITE request of two bytes at address 1. -/
def ioW : OcfIo :=
  { dir := OcfDir.OCF_WRITE, addr := 1, bytes := 2,
    priv := { data := { ptr := fun i => i + 20, offset := 2 }, offset := 9 } }

/-- A concrete READ request of three bytes at address 2, landing in the
buffer at its internal offset 5. -/
def ioR : OcfIo :=
  { dir := OcfDir.OCF_READ, addr := 2, bytes := 3,
    priv := { data := { ptr := fun _ => 0, offset := 5 }, offset := 8 } }

/-- Witness for C7 amended: a concrete WRITE and a concrete READ on the open
cache volume; the WRITE takes its byte from the buffer's internal offset 2,
the READ lands at the buffer's internal offset 5, and rebinding the
set_data offset to 4 changes nothing. -/
theorem submit_uses_buffer_internal_offset_witness :
    (sysOpenC.fdValidFor "cache" = true ∧ sysOpenC.fileFor "cache" = some fileC) ∧
    (volume_submit_io "cache"
        { ioW with priv := { data := ioW.priv.data, offset := 4 } } sysOpenC
      = volume_submit_io "cache" ioW sysOpenC ∧
     (ioW.dir = OcfDir.OCF_WRITE → 1 < ioW.bytes →
       ((volume_submit_io "cache" ioW sysOpenC).1.sys.fileFor "cache").map
           (fun g => g.data (ioW.addr + 1))
         = some (ioW.priv.data.ptr (ioW.priv.data.offset + 1))) ∧
     (ioW.dir = OcfDir.OCF_READ → 1 < min ioW.bytes (fileC.size - ioW.addr) →
       (volume_submit_io "cache" ioW sysOpenC).1.buffer (ioW.priv.data.offset + 1)
         = fileC.data (ioW.addr + 1))) ∧
    (ioR.dir = OcfDir.OCF_READ → 1 < min ioR.bytes (fileC.size - ioR.addr) →
      (volume_submit_io "cache" ioR sysOpenC).1.buffer (ioR.priv.data.offset + 1)
        = fileC.data (ioR.addr + 1)) :=
  ⟨⟨rfl, rfl⟩,
   submit_uses_buffer_internal_offset "cache" ioW sysOpenC 4 fileC 1 rfl rfl,
   (submit_uses_buffer_internal_offset "cache" ioR sysOpenC 4 fileC 1 rfl rfl).2.2⟩

/-- C8: the string dispatch on the identifier routes every operation to the
right backing file: open and submit under the name "cache" never touch the
core file or descriptor, open and submit under any other name never touch
the cache file or descriptor, a WRITE submit performs its pwrite against the
cache descriptor and file exactly when the name is "cache" and against the
core pair otherwise, and a READ submit sources its bytes from the cache
backing file when the name is "cache" and from the core backing file for
every other name. -/
theorem name_routing (name : String) (io : OcfIo) (s : Sys) (ok : Bool)
    (fCa fCo : File) (hname : name ≠ "cache") :
    ((volume_open "cache" ok s).2.coreFile = s.coreFile ∧
     (volume_open "cache" ok s).2.coreFdValid = s.coreFdValid) ∧
    ((volume_open name ok s).2.cacheFile = s.cacheFile ∧
     (volume_open name ok s).2.cacheFdValid = s.cacheFdValid) ∧
    (volume_submit_io "cache" io s).1.sys.coreFile = s.coreFile ∧
    (volume_submit_io name io s).1.sys.cacheFile = s.cacheFile ∧
    (io.dir = OcfDir.OCF_WRITE →
      (volume_submit_io "cache" io s).1.sys.cacheFile
        = (pwriteFd s.cacheFdValid s.cacheFile (ocf_io_get_data io).ptr
            (ocf_io_get_data io).offset io.bytes io.addr).1 ∧
      (volume_submit_io name io s).1.sys.coreFile
        = (pwriteFd s.coreFdValid s.coreFile (ocf_io_get_data io).ptr
            (ocf_io_get_data io).offset io.bytes io.addr).1) ∧
    (io.dir = OcfDir.OCF_READ → s.cacheFdValid = true →
      s.cacheFile = some fCa →
      ∀ j, j < min io.bytes (fCa.size - io.addr) →
      (volume_submit_io "cache" io s).1.buffer
          ((ocf_io_get_data io).offset + j)
        = fCa.data (io.addr + j)) ∧
    (io.dir = OcfDir.OCF_READ → s.coreFdValid = true →
      s.coreFile = some fCo →
      ∀ j, j < min io.bytes (fCo.size - io.addr) →
      (volume_submit_io name io s).1.buffer
          ((ocf_io_get_data io).offset + j)
        = fCo.data (io.addr + j)) := by
  obtain ⟨caF, coF, caV, coV, nr⟩ := s
  obtain ⟨d, A, B, ⟨⟨bp, boff⟩, po⟩⟩ := io
  refine ⟨?_, ?_, ?_, ?_, ?_, ?_, ?_⟩
  · cases hc : caF <;> cases ok <;> simp [volume_open, hc]
  · cases hk : coF <;> cases ok <;> simp [volume_open, hname, hk]
  · cases d <;> rfl
  · cases d <;> simp [volume_submit_io, hname]
  · intro hdir
    replace hdir : d = OcfDir.OCF_WRITE := hdir
    subst hdir
    refine ⟨rfl, ?_⟩
    simp [volume_submit_io, ocf_io_get_data, myvolume_io_get_data, hname]
  · intro hdir hv hc j hj
    replace hdir : d = OcfDir.OCF_READ := hdir
    subst hdir
    replace hv : caV = true := hv
    replace hc : caF = some fCa := hc
    subst hv; subst hc
    replace hj : j < min B (fCa.size - A) := hj
    exact preadBuf_in fCa bp boff B A j hj
  · intro hdir hv hc j hj
    replace hdir : d = OcfDir.OCF_READ := hdir
    subst hdir
    replace hv : coV = true := hv
    replace hc : coF = some fCo := hc
    subst hv; subst hc
    replace hj : j < min B (fCo.size - A) := hj
    simp only [volume_submit_io, ocf_io_get_data, myvolume_io_get_data,
      if_neg hname]
    exact preadBuf_in fCo bp boff B A j hj

/-- A concrete core backing file with distinctive contents: byte i reads as
i + 40. -/
def fileD : File := { size := 16, data := fun i => i + 40 }

/-- A concrete state with both volumes open: the cache volume on fileC and
the core volume on fileD. -/
def sysOpenBoth : Sys :=
  { cacheFile := some fileC, coreFile := some fileD, cacheFdValid := true,
    coreFdValid := true, need_reload := 0 }

/-- Witness for C8: routing observed concretely with the identifier "core"
against a state where both volumes are open, once for a WRITE request and
once for a READ request. -/
theorem name_routing_witness :
    ("core" ≠ "cache") ∧
    (((volume_open "cache" true sysOpenBoth).2.coreFile = sysOpenBoth.coreFile ∧
      (volume_open "cache" true sysOpenBoth).2.coreFdValid = sysOpenBoth.coreFdValid) ∧
     ((volume_open "core" true sysOpenBoth).2.cacheFile = sysOpenBoth.cacheFile ∧
      (volume_open "core" true sysOpenBoth).2.cacheFdValid = sysOpenBoth.cacheFdValid) ∧
     (volume_submit_io "cache" ioW sysOpenBoth).1.sys.coreFile = sysOpenBoth.coreFile ∧
     (volume_submit_io "core" ioW sysOpenBoth).1.sys.cacheFile = sysOpenBoth.cacheFile ∧
     (ioW.dir = OcfDir.OCF_WRITE →
       (volume_submit_io "cache" ioW sysOpenBoth).1.sys.cacheFile
         = (pwriteFd sysOpenBoth.cacheFdValid sysOpenBoth.cacheFile
             (ocf_io_get_data ioW).ptr (ocf_io_get_data ioW).offset
             ioW.bytes ioW.addr).1 ∧
       (volume_submit_io "core" ioW sysOpenBoth).1.sys.coreFile
         = (pwriteFd sysOpenBoth.coreFdValid sysOpenBoth.coreFile
             (ocf_io_get_data ioW).ptr (ocf_io_get_data ioW).offset
             ioW.bytes ioW.addr).1) ∧
     (ioW.dir = OcfDir.OCF_READ → sysOpenBoth.cacheFdValid = true →
       sysOpenBoth.cacheFile = some fileC →
       ∀ j, j < min ioW.bytes (fileC.size - ioW.addr) →
       (volume_submit_io "cache" ioW sysOpenBoth).1.buffer
           ((ocf_io_get_data ioW).offset + j)
         = fileC.data (ioW.addr + j)) ∧
     (ioW.dir = OcfDir.OCF_READ → sysOpenBoth.coreFdValid = true →
       sysOpenBoth.coreFile = some fileD →
       ∀ j, j < min ioW.bytes (fileD.size - ioW.addr) →
       (volume_submit_io "core" ioW sysOpenBoth).1.buffer
           ((ocf_io_get_data ioW).offset + j)
         = fileD.data (ioW.addr + j))) ∧
    (((volume_open "cache" true sysOpenBoth).2.coreFile = sysOpenBoth.coreFile ∧
      (volume_open "cache" true sysOpenBoth).2.coreFdValid = sysOpenBoth.coreFdValid) ∧
     ((volume_open "core" true sysOpenBoth).2.cacheFile = sysOpenBoth.cacheFile ∧
      (volume_open "core" true sysOpenBoth).2.cacheFdValid = sysOpenBoth.cacheFdValid) ∧
     (volume_submit_io "cache" ioR sysOpenBoth).1.sys.coreFile = sysOpenBoth.coreFile ∧
     (volume_submit_io "core" ioR sysOpenBoth).1.sys.cacheFile = sysOpenBoth.cacheFile ∧
     (ioR.dir = OcfDir.OCF_WRITE →
       (volume_submit_io "cache" ioR sysOpenBoth).1.sys.cacheFile
         = (pwriteFd sysOpenBoth.cacheFdValid sysOpenBoth.cacheFile
             (ocf_io_get_data ioR).ptr (ocf_io_get_data ioR).offset
             ioR.bytes ioR.addr).1 ∧
       (volume_submit_io "core" ioR sysOpenBoth).1.sys.coreFile
         = (pwriteFd sysOpenBoth.coreFdValid sysOpenBoth.coreFile
             (ocf_io_get_data ioR).ptr (ocf_io_get_data ioR).offset
             ioR.bytes ioR.addr).1) ∧
     (ioR.dir = OcfDir.OCF_READ → sysOpenBoth.cacheFdValid = true →
       sysOpenBoth.cacheFile = some fileC →
       ∀ j, j < min ioR.bytes (fileC.size - ioR.addr) →
       (volume_submit_io "cache" ioR sysOpenBoth).1.buffer
           ((ocf_io_get_data ioR).offset + j)
         = fileC.data (ioR.addr + j)) ∧
     (ioR.dir = OcfDir.OCF_READ → sysOpenBoth.coreFdValid = true →
       sysOpenBoth.coreFile = some fileD →
       ∀ j, j < min ioR.bytes (fileD.size - ioR.addr) →
       (volume_submit_io "core" ioR sysOpenBoth).1.buffer
           ((ocf_io_get_data ioR).offset + j)
         = fileD.data (ioR.addr + j))) :=
  ⟨by decide,
   name_routing "core" ioW sysOpenBoth true fileC fileD (by decide),
   name_routing "core" ioR sysOpenBoth true fileC fileD (by decide)⟩
